import Mathlib

/-!
Verification of the Raspi_Screen provisioning flow against its specification.

The definitions below are a shallow embedding of the Python source:

* `SetupManager.stop_ap_mode` (src/main.py): the `stop_ap.sh` command, the
  three-attempt DNS reset loop and the final `verify_dns_config` check.
* `webview_ready` (src/main.py): the orchestration callback, modelled as a
  function from the outcomes of every external call (an `Env`) to the list of
  actions it performs, together with the credentials-file state it leaves.
* `NetworkManager.reset_dns` (src/ap/network_manager.py): backup, temp-file
  write and atomic move, modelled as a state transformer on a resolver
  file-system state.
* `SetupManager.check_internet_connection` (src/main.py) and
  `NetworkManager.check_internet_connection` (src/ap/network_manager.py):
  the `ping` probe, `check=True`, with only `CalledProcessError` caught and
  no `timeout` argument.
* `validate_wifi_credentials` (src/scripts/utils.py).
* `sanitize_input` (src/server/utils.py): control-character filter,
  `html.escape`, removal of dangerous characters, `strip`.

External commands (shell scripts, `ping`, `iw`, `wpa_cli`, the Flask server)
are oracles: their outcomes are inputs to the model.  Unbounded polling loops
whose internals no claim depends on (the client-connection monitor inside
`start_ap_mode`, the credentials-file wait inside `handle_user_credentials`)
are each modelled as a single action, annotated below.
-/

/-- One observable action of the provisioning flow, in program order.
Boolean arguments record the outcome of the underlying external call. -/
inductive Act : Type
  /-- a `ping -c 1 8.8.8.8` probe inside `check_internet_connection`;
  the flag is the probe's success -/
  | checkInternet (ok : Bool)
  /-- Models `activation_client.send_activation_request()` via `activate_device` -/
  | activate (ok : Bool)
  /-- Models `ui_manager.close_ui()` -/
  | closeUi
  /-- Models `sudo bash ap/setup_ap.sh`; the flag is the command's success -/
  | startApCmd (ok : Bool)
  /-- Models `generate_wifi_qr("RaspberryAP", "raspberry", "wifi_qr.png")` -/
  | genWifiQr (ok : Bool)
  /-- Models `ui_manager.display_qr_code(...)` -/
  | displayQr
  /-- the client-connection monitor loop inside `start_ap_mode`
  (poll `iw dev wlan0 station dump` every 2 s until a client appears, then
  generate and display the URL QR code); abstracted as one action because no
  claim depends on its internals, only on its position in the flow -/
  | waitClientConn
  /-- the unguarded `subprocess.check_output(iw ...)` in `webview_ready` -/
  | iwQuery
  /-- an uncaught exception terminates the `webview_ready` callback -/
  | raisedExn
  /-- Models `generate_wifi_qr(redirect_url, "", "web_qr.png")` in `webview_ready` -/
  | genWebQr (ok : Bool)
  /-- Models `flask_process.start()` in `handle_user_credentials` -/
  | startFlask
  /-- the `while not os.path.exists(creds_file): time.sleep(2)` wait in
  `handle_user_credentials`; abstracted as one action (no claim depends on
  its internals), it completes when the web UI deposits the file -/
  | waitCredsFile
  /-- Models `flask_process.terminate(); flask_process.join()` -/
  | stopFlask
  /-- Models `sudo bash ap/stop_ap.sh`; the flag is the command's success -/
  | stopApCmd (ok : Bool)
  /-- one `reset_dns()` call; the flag is its boolean result -/
  | dnsReset (ok : Bool)
  /-- Models `time.sleep(2)` between DNS reset attempts -/
  | sleepDelay
  /-- Models `verify_dns_config()`; the flag is its boolean result -/
  | dnsVerify (ok : Bool)
  /-- the `"Warning: DNS configuration may not be correct"` log line -/
  | warnDns
  /-- reading ssid and password from `wifi_credentials.tmp` -/
  | readCreds
  /-- Models `connect_wifi(ssid, password)`; the flag is its boolean result -/
  | connectWifi (ok : Bool)
  /-- Models `os.remove(creds_file)` in `webview_ready` -/
  | removeCredsFile
  /-- the `"Activation failed. Please try again."` log line -/
  | logActivationFailed
  /-- the recursive `main()` call restarting the whole flow -/
  | restartMain
deriving DecidableEq, Repr

/-- Outcomes of every external call one `webview_ready` invocation makes. -/
structure Env : Type where
  /-- result of the initial `check_internet_connection()` -/
  net1 : Bool
  /-- whether `sudo bash ap/setup_ap.sh` exits 0 -/
  apStartOk : Bool
  /-- whether `generate_wifi_qr` returns a truthy path in `start_ap_mode` -/
  qrOk : Bool
  /-- whether the unguarded `iw` query in `webview_ready` raises -/
  iwRaises : Bool
  /-- whether that `iw` query returns non-empty output -/
  iwNonempty : Bool
  /-- whether `generate_wifi_qr` for the web QR returns a truthy path -/
  webQrOk : Bool
  /-- whether `sudo bash ap/stop_ap.sh` exits 0 -/
  stopApOk : Bool
  /-- result of the i-th `reset_dns()` call inside the retry loop -/
  dnsResetOk : Nat → Bool
  /-- result of `verify_dns_config()` after the loop -/
  dnsVerifyOk : Bool
  /-- result of `connect_wifi(ssid, password)` -/
  connectOk : Bool
  /-- result of the lone `reset_dns()` call after `connect_wifi` -/
  postApplyDnsOk : Bool
  /-- result of the `check_internet_connection()` after credentials -/
  net2 : Bool
  /-- result of `send_activation_request()` -/
  activateOk : Bool

/-- The DNS reset retry loop of `SetupManager.stop_ap_mode`:
`for attempt in range(max_attempts): if reset_dns(): break else: log; sleep(2)`.
`fuel` is the number of remaining iterations, `i` the current attempt index.
A failed attempt always sleeps, including the last one. -/
def dnsResetLoop (r : Nat → Bool) : Nat → Nat → List Act
  | 0, _ => []
  | fuel + 1, i =>
    if r i then [Act.dnsReset true]
    else Act.dnsReset false :: Act.sleepDelay :: dnsResetLoop r fuel (i + 1)

/-- Models `max_attempts = 3` in `stop_ap_mode`. -/
def maxAttempts : Nat := 3

/-- Number of `reset_dns()` invocations recorded in a trace. -/
def resetCount (l : List Act) : Nat :=
  l.countP fun a => match a with | Act.dnsReset _ => true | _ => false

/-- Number of `time.sleep(2)` delays recorded in a trace. -/
def sleepCount (l : List Act) : Nat :=
  l.countP fun a => match a with | Act.sleepDelay => true | _ => false

/-- Models `SetupManager.stop_ap_mode`: run `stop_ap.sh`; on success run the DNS
retry loop and then `verify_dns_config`, warning if it is false; on failure
(`CalledProcessError` caught) skip everything after the command. -/
def stop_ap_mode (e : Env) : List Act :=
  Act.stopApCmd e.stopApOk ::
    if e.stopApOk then
      dnsResetLoop e.dnsResetOk maxAttempts 0 ++
        (Act.dnsVerify e.dnsVerifyOk ::
          if e.dnsVerifyOk then [] else [Act.warnDns])
    else []

/-- Models `SetupManager.start_ap_mode`: run `setup_ap.sh`; on failure
(`CalledProcessError` caught) log and return.  On success generate the WiFi
QR code; if generation succeeded, display it and enter the client-connection
monitor loop (abstracted as `Act.waitClientConn`), else log an error. -/
def start_ap_mode (e : Env) : List Act :=
  if e.apStartOk then
    Act.startApCmd true :: Act.genWifiQr e.qrOk ::
      if e.qrOk then [Act.displayQr, Act.waitClientConn] else []
  else [Act.startApCmd false]

/-- The credentials-file state shared between the Flask web UI (writer) and
the provisioning flow (reader).  `credsFile` holds the `(ssid, password)`
pair stored in `wifi_credentials.tmp`, or `none` if the file is absent. -/
structure Fs : Type where
  credsFile : Option (String × String)

/-- Models `SetupManager.handle_user_credentials`: start the Flask server, poll
until `wifi_credentials.tmp` exists (the web UI deposits `dep` during the
wait), terminate the server and return `True`.  The `os.remove(creds_file)`
line in the source is commented out, so the file is left in place. -/
def handle_user_credentials (dep : String × String) (fs : Fs) :
    List Act × Fs × Bool :=
  ([Act.startFlask, Act.waitCredsFile, Act.stopFlask],
    { fs with credsFile := some dep }, true)

/-- The read path for the hand-off artifact: `open(creds_file)` followed by
two `readline()` calls in `webview_ready`. -/
def readCredsFile (fs : Fs) : Option (String × String) := fs.credsFile

/-- The part of `webview_ready`'s offline branch that follows
`stop_ap_mode()`: read the credentials file, call `connect_wifi` (result
ignored), call `reset_dns()` once (result ignored), remove the credentials
file, then re-check connectivity; on success attempt activation, on failure
restart the whole flow with a recursive `main()` call. -/
def afterStopAp (e : Env) : List Act :=
  Act.readCreds :: Act.connectWifi e.connectOk ::
    Act.dnsReset e.postApplyDnsOk :: Act.removeCredsFile ::
      Act.checkInternet e.net2 ::
        if e.net2 then
          Act.activate e.activateOk ::
            if e.activateOk then [] else [Act.logActivationFailed]
        else [Act.restartMain]

/-- Models `webview_ready` (src/main.py): the orchestration callback.  Returns the
trace of actions of one invocation and the final credentials-file state.
`dep` is the pair the web UI deposits while `handle_user_credentials`
waits.  The recursive `main()` call on a failed final connectivity check is
recorded as `Act.restartMain` instead of unfolded. -/
def webview_ready (e : Env) (dep : String × String) (fs : Fs) :
    List Act × Fs :=
  if e.net1 then
    (Act.checkInternet true :: Act.activate e.activateOk ::
      (if e.activateOk then [Act.closeUi] else []), fs)
  else
    let pre := Act.checkInternet false :: start_ap_mode e
    if e.iwRaises then (pre ++ [Act.iwQuery, Act.raisedExn], fs)
    else
      let iwActs :=
        Act.iwQuery ::
          if e.iwNonempty then [Act.genWebQr e.webQrOk] else []
      let h := handle_user_credentials dep fs
      -- `handle_user_credentials` always returns True, so the branch that
      -- stops the AP, applies credentials and removes the file always runs.
      (pre ++ iwActs ++ h.1 ++ stop_ap_mode e ++ afterStopAp e,
        { h.2.1 with credsFile := none })

/-! ### Connectivity probe (`check_internet_connection`) -/

/-- Possible outcomes of `subprocess.run(['ping','-c','1','8.8.8.8'],
check=True)`: the process exits 0, exits non-zero (raising
`CalledProcessError` because of `check=True`), or fails to execute at all
(e.g. `FileNotFoundError`/`OSError`, not a `CalledProcessError`). -/
inductive PingOutcome : Type
  | exitZero
  | exitNonZero
  | execError
deriving DecidableEq, Repr

/-- The result of calling a Python function: a returned value or a raised
exception (identified by its class name). -/
inductive PyResult (α : Type) : Type
  | ok (a : α)
  | raised (exn : String)
deriving DecidableEq, Repr

/-- The argument list of the probe command in both
`SetupManager.check_internet_connection` and
`NetworkManager.check_internet_connection`. -/
def pingArgs : List String := ["ping", "-c", "1", "8.8.8.8"]

/-- The `timeout` keyword passed to `subprocess.run` for the probe: the
source passes none, so the call has no per-call timeout at all. -/
def pingTimeout : Option Nat := none

/-- Models `check_internet_connection` (identical logic in src/main.py and
src/ap/network_manager.py): run the ping, return `True` on exit 0; the
`except subprocess.CalledProcessError` clause maps a non-zero exit to
`False`; any other execution error is not caught and propagates. -/
def check_internet_connection : PingOutcome → PyResult Bool
  | PingOutcome.exitZero => PyResult.ok true
  | PingOutcome.exitNonZero => PyResult.ok false
  | PingOutcome.execError => PyResult.raised ("OSError")

/-! ### DNS resetter (`NetworkManager.reset_dns`) -/

/-- The resolver-related file-system state: `/etc/resolv.conf`,
`/etc/resolv.conf.backup` and `/tmp/resolv.conf` contents (`none` when the
file is absent). -/
structure ResolvFs : Type where
  resolvConf : Option String
  resolvBackup : Option String
  tmpResolv : Option String
deriving DecidableEq, Repr

/-- Outcomes of the three steps of `reset_dns`: the `sudo cp` backup, the
write of `/tmp/resolv.conf`, and the `sudo mv` atomic replace.
`failedWriteContent` is the content left in `/tmp/resolv.conf` by an
interrupted write (the temp file, never the resolver file, may be left
incomplete). -/
structure ResetDnsOutcome : Type where
  cpOk : Bool
  writeOk : Bool
  mvOk : Bool
  failedWriteContent : String

/-- The configuration `reset_dns` writes:
`"nameserver 8.8.8.8\nnameserver 8.8.4.4\n"`. -/
def dnsConfig : String := "nameserver 8.8.8.8\nnameserver 8.8.4.4\n"

/-- Models `NetworkManager.reset_dns` (src/ap/network_manager.py): back up
`/etc/resolv.conf` with `sudo cp`, write the new configuration to
`/tmp/resolv.conf`, move it onto `/etc/resolv.conf` with `sudo mv`; return
`True` on success; `CalledProcessError` and `IOError` (which includes
permission errors) are caught and mapped to `False`. -/
def reset_dns (o : ResetDnsOutcome) (fs : ResolvFs) : Bool × ResolvFs :=
  if o.cpOk then
    let fs1 := { fs with resolvBackup := fs.resolvConf }
    if o.writeOk then
      let fs2 := { fs1 with tmpResolv := some dnsConfig }
      if o.mvOk then
        (true, { fs2 with resolvConf := some dnsConfig, tmpResolv := none })
      else (false, fs2)
    else (false, { fs1 with tmpResolv := some o.failedWriteContent })
  else (false, fs)

/-! ### Credential validation (`validate_wifi_credentials`) -/

/-- Models `validate_wifi_credentials` (src/scripts/utils.py):
`if not ssid or len(ssid) > 32: return False`;
`if password and (len(password) < 8 or len(password) > 63): return False`;
`return True`.  Python `len` counts code points and `if password` is false
for both `None` and the empty string. -/
def validate_wifi_credentials (ssid : String) (password : Option String) :
    Bool :=
  if ssid.length = 0 ∨ ssid.length > 32 then false
  else
    match password with
    | none => true
    | some p =>
      if p.length ≠ 0 ∧ (p.length < 8 ∨ p.length > 63) then false else true

/-- UTF-8 byte length of a string, used to state the spec's byte-counted
length bounds and compare them with the code's code-point-counted checks. -/
def utf8Len (s : String) : Nat :=
  s.data.foldl (fun n c => n + c.utf8Size) 0

/-! ### Input sanitisation (`sanitize_input`, src/server/utils.py) -/

/-- The apostrophe character, code point 39. -/
def quoteChar : Char := Char.ofNat 39

/-- The double-quote character, code point 34. -/
def dquoteChar : Char := Char.ofNat 34

/-- The backslash character, code point 92. -/
def backslashChar : Char := Char.ofNat 92

/-- Models `''.join(char for char in text if ord(char) >= 32)`: drop control
characters. -/
def removeCtrl (l : List Char) : List Char :=
  l.filter fun c => 32 ≤ c.toNat

/-- Python `str.replace` for a single-character pattern: every occurrence of
`c` is replaced by the string `t`. -/
def replaceChar (c : Char) (t : List Char) : List Char → List Char
  | [] => []
  | x :: xs => (if x = c then t else [x]) ++ replaceChar c t xs

/-- Models `html.escape(text)` with the default `quote=True`: sequentially replace
`&` by `&amp;`, `<` by `&lt;`, `>` by `&gt;`, `"` by `&quot;` and the
apostrophe by `&#x27;`, in that order. -/
def htmlEscape (l : List Char) : List Char :=
  replaceChar quoteChar ('&' :: '#' :: 'x' :: '2' :: '7' :: [';'])
    (replaceChar dquoteChar ("&quot;".data)
      (replaceChar '>' "&gt;".data
        (replaceChar '<' "&lt;".data
          (replaceChar '&' "&amp;".data l))))

/-- The character class of `re.sub(r'[;<>&\'"\\]', '', text)`. -/
def dangerousChars : List Char :=
  [';', '<', '>', '&', quoteChar, dquoteChar, backslashChar]

/-- The `re.sub` removal of the dangerous characters. -/
def removeDangerous (l : List Char) : List Char :=
  l.filter fun c => ¬ c ∈ dangerousChars

/-- Code points Python's `str.isspace` (and hence `str.strip` with no
argument) treats as whitespace. -/
def pyWhitespace : List Nat :=
  [9, 10, 11, 12, 13, 28, 29, 30, 31, 32, 133, 160, 5760,
    8192, 8193, 8194, 8195, 8196, 8197, 8198, 8199, 8200, 8201, 8202,
    8232, 8233, 8239, 8287, 12288]

/-- Whether `str.strip` strips the character `c`. -/
def pyIsSpace (c : Char) : Bool := pyWhitespace.contains c.toNat

/-- Python `str.strip()`: drop leading and trailing whitespace. -/
def pyStrip (l : List Char) : List Char :=
  ((l.dropWhile pyIsSpace).reverse.dropWhile pyIsSpace).reverse

/-- Models `sanitize_input` (src/server/utils.py): drop control characters, HTML
escape, remove the dangerous characters, strip. -/
def sanitize_input (s : String) : String :=
  String.mk (pyStrip (removeDangerous (htmlEscape (removeCtrl s.data))))

/-- Every character `html.escape` can insert: the characters of the
replacement strings `&amp;`, `&lt;`, `&gt;`, `&quot;` and `&#x27;`. -/
def escapeChars : List Char :=
  "&amp;".data ++ "&lt;".data ++ "&gt;".data ++ "&quot;".data ++ "&#x27;".data

/-! ### Ordering on traces and concrete instances -/

/-- Some occurrence of `x` appears strictly before some occurrence of `y`
in the trace `l`. -/
def Before (x y : Act) (l : List Act) : Prop :=
  ∃ l₁ l₂, l = l₁ ++ l₂ ∧ x ∈ l₁ ∧ y ∈ l₂

/-- An all-success environment: offline at first, AP and QR generation
succeed, every DNS reset succeeds, credentials apply, the device comes
online and activates. -/
def envA : Env :=
  { net1 := false, apStartOk := true, qrOk := true, iwRaises := false,
    iwNonempty := true, webQrOk := true, stopApOk := true,
    dnsResetOk := fun _ => true, dnsVerifyOk := true, connectOk := true,
    postApplyDnsOk := true, net2 := true, activateOk := true }

/-- The credentials deposited by the web form in the concrete scenarios. -/
def depA : String × String := ("HomeNet", "correcthorse1")

/-- The initial credentials-file state: no file present. -/
def fsA : Fs := { credsFile := none }

/-- Trace of a `webview_ready` invocation in which `setup_ap.sh` fails but
everything else succeeds. -/
def trC2 : List Act :=
  (webview_ready { envA with apStartOk := false } depA fsA).1

/-- Trace of the all-success `webview_ready` invocation. -/
def trC3 : List Act := (webview_ready envA depA fsA).1

/-- Trace of a `webview_ready` invocation in which `connect_wifi` returns
`False` but the final connectivity check succeeds. -/
def trC8 : List Act :=
  (webview_ready { envA with connectOk := false } depA fsA).1

/-- Environment of spec Scenario C: every DNS reset attempt fails and
`verify_dns_config` returns `False`; everything else succeeds. -/
def envC5 : Env :=
  { envA with dnsResetOk := fun _ => false, dnsVerifyOk := false }

/-- Step outcomes for a fully successful `reset_dns` run. -/
def oAll : ResetDnsOutcome :=
  { cpOk := true, writeOk := true, mvOk := true, failedWriteContent := "" }

/-- A resolver state holding a prior configuration and no backup. -/
def fs0 : ResolvFs :=
  { resolvConf := some ("nameserver 1.1.1.1\n"), resolvBackup := none,
    tmpResolv := none }

/-- An SSID of seventeen two-byte characters: seventeen code points,
thirty-four UTF-8 bytes. -/
def exSsid : String := String.mk (List.replicate 17 'é')

/-! ## Helper lemmas -/

/-- Structure of every offline, non-raising `webview_ready` trace: probe,
AP start section, `iw` query and web QR, credential wait, AP stop with DNS
section, then the post-stop tail. -/
theorem webview_ready_offline (e : Env) (dep : String × String) (fs : Fs)
    (h1 : e.net1 = false) (h3 : e.iwRaises = false) :
    (webview_ready e dep fs).1 =
      (Act.checkInternet false :: start_ap_mode e) ++
        (Act.iwQuery ::
          (if e.iwNonempty then [Act.genWebQr e.webQrOk] else [])) ++
        [Act.startFlask, Act.waitCredsFile, Act.stopFlask] ++
        stop_ap_mode e ++ afterStopAp e := by
  simp [webview_ready, handle_user_credentials, h1, h3]

/-- Every action of the DNS retry loop is a reset or a sleep. -/
theorem mem_dnsResetLoop {a : Act} {r : Nat → Bool} :
    ∀ {k i : Nat}, a ∈ dnsResetLoop r k i →
      (∃ b, a = Act.dnsReset b) ∨ a = Act.sleepDelay := by
  intro k
  induction k with
  | zero => intro i h; simp [dnsResetLoop] at h
  | succ n ih =>
    intro i h
    by_cases hr : r i = true
    · simp [dnsResetLoop, hr] at h
      exact Or.inl ⟨true, h⟩
    · simp [dnsResetLoop, hr] at h
      rcases h with h | h | h
      · exact Or.inl ⟨false, h⟩
      · exact Or.inr h
      · exact ih h

/-- The first action of a non-trivial DNS retry loop is the first reset. -/
theorem dnsResetLoop_head (r : Nat → Bool) (k i : Nat) :
    Act.dnsReset (r i) ∈ dnsResetLoop r (k + 1) i := by
  by_cases hr : r i = true <;> simp [dnsResetLoop, hr]

/-- Actions other than resets and sleeps do not occur in the retry loop. -/
theorem not_mem_dnsResetLoop (a : Act) (r : Nat → Bool) (k i : Nat)
    (h1 : ∀ b, a ≠ Act.dnsReset b) (h2 : a ≠ Act.sleepDelay) :
    a ∉ dnsResetLoop r k i := fun h => by
  rcases mem_dnsResetLoop h with ⟨b, hb⟩ | hb
  · exact h1 b hb
  · exact h2 hb

/-- The retry loop performs no credentials-file removal. -/
theorem count_removeCreds_loop (r : Nat → Bool) (k i : Nat) :
    (dnsResetLoop r k i).count Act.removeCredsFile = 0 :=
  List.count_eq_zero.mpr
    (not_mem_dnsResetLoop _ r k i (fun _ h => Act.noConfusion h)
      (fun h => Act.noConfusion h))

/-- The AP start section performs no credentials-file removal. -/
theorem count_removeCreds_startAp (e : Env) :
    (start_ap_mode e).count Act.removeCredsFile = 0 := by
  cases hap : e.apStartOk <;> cases hqr : e.qrOk <;>
    simp [start_ap_mode, hap, hqr, List.count_cons]

/-- The AP stop section performs no credentials-file removal. -/
theorem count_removeCreds_stopAp (e : Env) :
    (stop_ap_mode e).count Act.removeCredsFile = 0 := by
  cases hst : e.stopApOk <;> cases hdv : e.dnsVerifyOk <;>
    simp [stop_ap_mode, hst, hdv, List.count_append, List.count_cons,
      count_removeCreds_loop]

/-- The post-stop tail removes the credentials file exactly once. -/
theorem count_removeCreds_after (e : Env) :
    (afterStopAp e).count Act.removeCredsFile = 1 := by
  cases hn2 : e.net2 <;> cases hac : e.activateOk <;>
    simp [afterStopAp, hn2, hac, List.count_cons]

/-- The AP start section never restarts the whole flow. -/
theorem not_mem_restart_startAp (e : Env) :
    Act.restartMain ∉ start_ap_mode e := by
  cases hap : e.apStartOk <;> cases hqr : e.qrOk <;>
    simp [start_ap_mode, hap, hqr]

/-- The AP stop section never restarts the whole flow. -/
theorem not_mem_restart_stopAp (e : Env) :
    Act.restartMain ∉ stop_ap_mode e := by
  have hl := not_mem_dnsResetLoop Act.restartMain e.dnsResetOk maxAttempts 0
    (fun _ h => Act.noConfusion h) (fun h => Act.noConfusion h)
  cases hst : e.stopApOk <;> cases hdv : e.dnsVerifyOk <;>
    simp [stop_ap_mode, hst, hdv, hl]

/-- When the final connectivity check succeeds, the post-stop tail does not
restart the whole flow. -/
theorem not_mem_restart_after (e : Env) (hn : e.net2 = true) :
    Act.restartMain ∉ afterStopAp e := by
  cases hac : e.activateOk <;> simp [afterStopAp, hn, hac]

/-! ## Claim C1: DNS reset retry bound and sleep count -/

/-- C1 (counterexample): when all three configured attempts fail, the loop
in `stop_ap_mode` sleeps once after every failed attempt including the
last, so it sleeps `max_attempts` times, not `max_attempts - 1` as the
claim states. -/
theorem C1_counterexample :
    sleepCount (dnsResetLoop (fun _ => false) maxAttempts 0) = 3 ∧
    maxAttempts - 1 = 2 ∧
    sleepCount (dnsResetLoop (fun _ => false) maxAttempts 0) ≠
      maxAttempts - 1 := by
  decide

/-- C1 (amended): for the constant config `max_attempts = 3`, the DNS reset
retry loop invokes `reset()` at most `max_attempts` times, stops at the
first attempt that returns true (after `i` failures it has made `i + 1`
resets and `i` sleeps), and for every outcome sequence in which all
attempts fail it performs exactly `max_attempts` resets and sleeps exactly
`max_attempts` times — one sleep after every failed attempt, including the
last. -/
theorem C1_amended (r : Nat → Bool) :
    resetCount (dnsResetLoop r maxAttempts 0) ≤ maxAttempts ∧
    (∀ i, i < maxAttempts → (∀ j, j < i → r j = false) → r i = true →
      resetCount (dnsResetLoop r maxAttempts 0) = i + 1 ∧
      sleepCount (dnsResetLoop r maxAttempts 0) = i) ∧
    ((∀ i, i < maxAttempts → r i = false) →
      resetCount (dnsResetLoop r maxAttempts 0) = maxAttempts ∧
      sleepCount (dnsResetLoop r maxAttempts 0) = maxAttempts) := by
  have h3 : maxAttempts = 3 := rfl
  rw [h3]
  refine ⟨?_, ?_, ?_⟩
  · cases h0 : r 0 <;> cases h1 : r 1 <;> cases h2 : r 2 <;>
      simp [dnsResetLoop, h0, h1, h2, resetCount, List.countP_cons]
  · intro i hi hprev hsucc
    interval_cases i
    · simp [dnsResetLoop, hsucc, resetCount, sleepCount, List.countP_cons]
    · have p0 : r 0 = false := hprev 0 (by omega)
      simp [dnsResetLoop, p0, hsucc, resetCount, sleepCount,
        List.countP_cons]
    · have p0 : r 0 = false := hprev 0 (by omega)
      have p1 : r 1 = false := hprev 1 (by omega)
      simp [dnsResetLoop, p0, p1, hsucc, resetCount, sleepCount,
        List.countP_cons]
  · intro hall
    have p0 : r 0 = false := hall 0 (by omega)
    have p1 : r 1 = false := hall 1 (by omega)
    have p2 : r 2 = false := hall 2 (by omega)
    simp [dnsResetLoop, p0, p1, p2, resetCount, sleepCount,
      List.countP_cons]

/-- C1 (witness): the amended theorem evaluated at the all-fail outcome
sequence. -/
theorem C1_witness :
    resetCount (dnsResetLoop (fun _ => false) maxAttempts 0) = maxAttempts ∧
    sleepCount (dnsResetLoop (fun _ => false) maxAttempts 0) = maxAttempts :=
  (C1_amended (fun _ => false)).2.2 (fun _ _ => rfl)

/-! ## Claim C2: AP start failure is not terminal -/

/-- C2 (counterexample): in a run where `setup_ap.sh` fails and every later
call succeeds, the flow does not stop: the credential wait, credential
application, DNS reset and activation all occur after the failed AP start,
contradicting the claimed direct transition to FAILED with no further
provisioning actions. -/
theorem C2_counterexample :
    Act.startApCmd false ∈ trC2 ∧
    Before (Act.startApCmd false) Act.waitCredsFile trC2 ∧
    Before (Act.startApCmd false) (Act.connectWifi true) trC2 ∧
    Before (Act.startApCmd false) (Act.dnsReset true) trC2 ∧
    Before (Act.startApCmd false) (Act.activate true) trC2 := by
  refine ⟨by decide, ?_, ?_, ?_, ?_⟩ <;>
    exact ⟨[Act.checkInternet false, Act.startApCmd false],
      [Act.iwQuery, Act.genWebQr true, Act.startFlask, Act.waitCredsFile,
        Act.stopFlask, Act.stopApCmd true, Act.dnsReset true,
        Act.dnsVerify true, Act.readCreds, Act.connectWifi true,
        Act.dnsReset true, Act.removeCredsFile, Act.checkInternet true,
        Act.activate true],
      by decide, by decide, by decide⟩

/-- C2 (amended): when `start_ap()` fails, `start_ap_mode` catches the
error, logs it and returns; `webview_ready` then continues the provisioning
flow unconditionally — credential intake, credential application, the
post-apply DNS reset and the final connectivity check all still occur, and
the credential application comes after the failed AP start.  There is no
FAILED state in the code. -/
theorem C2_amended (e : Env) (dep : String × String) (fs : Fs)
    (h1 : e.net1 = false) (h2 : e.apStartOk = false) (h3 : e.iwRaises = false) :
    Act.waitCredsFile ∈ (webview_ready e dep fs).1 ∧
    Act.connectWifi e.connectOk ∈ (webview_ready e dep fs).1 ∧
    Act.dnsReset e.postApplyDnsOk ∈ (webview_ready e dep fs).1 ∧
    Act.checkInternet e.net2 ∈ (webview_ready e dep fs).1 ∧
    Before (Act.startApCmd false) (Act.connectWifi e.connectOk)
      (webview_ready e dep fs).1 := by
  rw [webview_ready_offline e dep fs h1 h3]
  refine ⟨?_, ?_, ?_, ?_, ?_⟩
  · simp
  · simp [afterStopAp]
  · simp [afterStopAp]
  · simp [afterStopAp]
  · refine ⟨Act.checkInternet false :: start_ap_mode e,
      (Act.iwQuery ::
        (if e.iwNonempty then [Act.genWebQr e.webQrOk] else [])) ++
        [Act.startFlask, Act.waitCredsFile, Act.stopFlask] ++
        stop_ap_mode e ++ afterStopAp e,
      by simp, ?_, ?_⟩
    · simp [start_ap_mode, h2]
    · simp [afterStopAp]

/-- C2 (witness): the amended theorem at the concrete failing-AP run. -/
theorem C2_witness :
    Act.waitCredsFile ∈
      (webview_ready { envA with apStartOk := false } depA fsA).1 ∧
    Act.connectWifi true ∈
      (webview_ready { envA with apStartOk := false } depA fsA).1 :=
  ⟨(C2_amended { envA with apStartOk := false } depA fsA rfl rfl rfl).1,
    (C2_amended { envA with apStartOk := false } depA fsA rfl rfl rfl).2.1⟩

/-! ## Claim C3: ordering of AP stop, credential application, DNS reset -/

/-- C3 (counterexample): in the all-success run, a `reset_dns()` call (the
retry loop inside `stop_ap_mode`) happens strictly before
`connect_wifi(ssid, passphrase)` is issued, contradicting the claim that no
DNS reset is ever performed before the station credentials are applied. -/
theorem C3_counterexample :
    Before (Act.dnsReset true) (Act.connectWifi true) trC3 :=
  ⟨[Act.checkInternet false, Act.startApCmd true, Act.genWifiQr true,
      Act.displayQr, Act.waitClientConn, Act.iwQuery, Act.genWebQr true,
      Act.startFlask, Act.waitCredsFile, Act.stopFlask, Act.stopApCmd true,
      Act.dnsReset true, Act.dnsVerify true],
    [Act.readCreds, Act.connectWifi true, Act.dnsReset true,
      Act.removeCredsFile, Act.checkInternet true, Act.activate true],
    by decide, by decide, by decide⟩

/-- C3 (amended): in every offline, non-raising run the `stop_ap.sh`
command returns before `connect_wifi` is issued, as claimed; but the DNS
reset retry loop (inside `stop_ap_mode`, when `stop_ap.sh` succeeds) runs
before the credentials are applied, and one further `reset_dns()` call runs
after they are applied. -/
theorem C3_amended (e : Env) (dep : String × String) (fs : Fs)
    (h1 : e.net1 = false) (h3 : e.iwRaises = false) :
    Before (Act.stopApCmd e.stopApOk) (Act.connectWifi e.connectOk)
      (webview_ready e dep fs).1 ∧
    (e.stopApOk = true →
      Before (Act.dnsReset (e.dnsResetOk 0)) (Act.connectWifi e.connectOk)
        (webview_ready e dep fs).1) ∧
    Before (Act.connectWifi e.connectOk) (Act.dnsReset e.postApplyDnsOk)
      (webview_ready e dep fs).1 := by
  rw [webview_ready_offline e dep fs h1 h3]
  refine ⟨?_, ?_, ?_⟩
  · refine ⟨(Act.checkInternet false :: start_ap_mode e) ++
      (Act.iwQuery ::
        (if e.iwNonempty then [Act.genWebQr e.webQrOk] else [])) ++
      [Act.startFlask, Act.waitCredsFile, Act.stopFlask] ++
      stop_ap_mode e, afterStopAp e, by simp, ?_, ?_⟩
    · simp [stop_ap_mode]
    · simp [afterStopAp]
  · intro hstop
    refine ⟨(Act.checkInternet false :: start_ap_mode e) ++
      (Act.iwQuery ::
        (if e.iwNonempty then [Act.genWebQr e.webQrOk] else [])) ++
      [Act.startFlask, Act.waitCredsFile, Act.stopFlask] ++
      stop_ap_mode e, afterStopAp e, by simp, ?_, ?_⟩
    · have hd : Act.dnsReset (e.dnsResetOk 0) ∈
          dnsResetLoop e.dnsResetOk maxAttempts 0 :=
        dnsResetLoop_head e.dnsResetOk 2 0
      have hm : Act.dnsReset (e.dnsResetOk 0) ∈ stop_ap_mode e := by
        simp [stop_ap_mode, hstop]
        tauto
      exact List.mem_append_right _ hm
    · simp [afterStopAp]
  · refine ⟨(Act.checkInternet false :: start_ap_mode e) ++
      (Act.iwQuery ::
        (if e.iwNonempty then [Act.genWebQr e.webQrOk] else [])) ++
      [Act.startFlask, Act.waitCredsFile, Act.stopFlask] ++
      stop_ap_mode e ++ [Act.readCreds, Act.connectWifi e.connectOk],
      Act.dnsReset e.postApplyDnsOk :: Act.removeCredsFile ::
        Act.checkInternet e.net2 ::
          (if e.net2 then
            Act.activate e.activateOk ::
              (if e.activateOk then [] else [Act.logActivationFailed])
          else [Act.restartMain]),
      by simp [afterStopAp], by simp, by simp⟩

/-- C3 (witness): the amended theorem at the all-success run. -/
theorem C3_witness :
    Before (Act.stopApCmd true) (Act.connectWifi true)
      (webview_ready envA depA fsA).1 ∧
    Before (Act.dnsReset true) (Act.connectWifi true)
      (webview_ready envA depA fsA).1 ∧
    Before (Act.connectWifi true) (Act.dnsReset true)
      (webview_ready envA depA fsA).1 :=
  ⟨(C3_amended envA depA fsA rfl rfl).1,
    (C3_amended envA depA fsA rfl rfl).2.1 rfl,
    (C3_amended envA depA fsA rfl rfl).2.2⟩

/-! ## Claim C4: credential hand-off clearing -/

/-- C4 (counterexample): `handle_user_credentials` returns successfully
with the hand-off artifact still in place (the `os.remove(creds_file)` line
in it is commented out), so a second immediate call to the read path
returns the very same credentials; and in the all-success run the removal
performed later by `webview_ready` is not immediately after the read —
`connect_wifi` runs in between. -/
theorem C4_counterexample :
    (handle_user_credentials depA fsA).2.2 = true ∧
    readCredsFile (handle_user_credentials depA fsA).2.1 = some depA ∧
    Before Act.readCreds (Act.connectWifi true) trC3 ∧
    Before (Act.connectWifi true) Act.removeCredsFile trC3 := by
  refine ⟨by decide, by decide, ?_, ?_⟩
  · exact ⟨[Act.checkInternet false, Act.startApCmd true, Act.genWifiQr true,
      Act.displayQr, Act.waitClientConn, Act.iwQuery, Act.genWebQr true,
      Act.startFlask, Act.waitCredsFile, Act.stopFlask, Act.stopApCmd true,
      Act.dnsReset true, Act.dnsVerify true, Act.readCreds],
      [Act.connectWifi true, Act.dnsReset true, Act.removeCredsFile,
        Act.checkInternet true, Act.activate true],
      by decide, by decide, by decide⟩
  · exact ⟨[Act.checkInternet false, Act.startApCmd true, Act.genWifiQr true,
      Act.displayQr, Act.waitClientConn, Act.iwQuery, Act.genWebQr true,
      Act.startFlask, Act.waitCredsFile, Act.stopFlask, Act.stopApCmd true,
      Act.dnsReset true, Act.dnsVerify true, Act.readCreds,
      Act.connectWifi true],
      [Act.dnsReset true, Act.removeCredsFile, Act.checkInternet true,
        Act.activate true],
      by decide, by decide, by decide⟩

/-- C4 (amended): the credential wait itself never clears the artifact —
after `handle_user_credentials` returns, the read path still returns the
deposited credentials.  Instead, `webview_ready` removes the file exactly
once per offline run, after the read, after `connect_wifi` and after the
post-apply `reset_dns()`, and the artifact is gone by the end of the run. -/
theorem C4_amended (e : Env) (dep : String × String) (fs : Fs)
    (h1 : e.net1 = false) (h3 : e.iwRaises = false) :
    readCredsFile (handle_user_credentials dep fs).2.1 = some dep ∧
    (webview_ready e dep fs).1.count Act.removeCredsFile = 1 ∧
    Before Act.readCreds Act.removeCredsFile (webview_ready e dep fs).1 ∧
    Before (Act.connectWifi e.connectOk) Act.removeCredsFile
      (webview_ready e dep fs).1 ∧
    (webview_ready e dep fs).2.credsFile = none := by
  refine ⟨rfl, ?_, ?_, ?_, ?_⟩
  · rw [webview_ready_offline e dep fs h1 h3]
    cases hiw : e.iwNonempty <;>
      simp [List.count_append, List.count_cons, hiw,
        count_removeCreds_startAp, count_removeCreds_stopAp,
        count_removeCreds_after]
  · rw [webview_ready_offline e dep fs h1 h3]
    refine ⟨(Act.checkInternet false :: start_ap_mode e) ++
      (Act.iwQuery ::
        (if e.iwNonempty then [Act.genWebQr e.webQrOk] else [])) ++
      [Act.startFlask, Act.waitCredsFile, Act.stopFlask] ++
      stop_ap_mode e ++
      [Act.readCreds, Act.connectWifi e.connectOk,
        Act.dnsReset e.postApplyDnsOk],
      Act.removeCredsFile :: Act.checkInternet e.net2 ::
        (if e.net2 then
          Act.activate e.activateOk ::
            (if e.activateOk then [] else [Act.logActivationFailed])
        else [Act.restartMain]),
      by simp [afterStopAp], by simp, by simp⟩
  · rw [webview_ready_offline e dep fs h1 h3]
    refine ⟨(Act.checkInternet false :: start_ap_mode e) ++
      (Act.iwQuery ::
        (if e.iwNonempty then [Act.genWebQr e.webQrOk] else [])) ++
      [Act.startFlask, Act.waitCredsFile, Act.stopFlask] ++
      stop_ap_mode e ++
      [Act.readCreds, Act.connectWifi e.connectOk,
        Act.dnsReset e.postApplyDnsOk],
      Act.removeCredsFile :: Act.checkInternet e.net2 ::
        (if e.net2 then
          Act.activate e.activateOk ::
            (if e.activateOk then [] else [Act.logActivationFailed])
        else [Act.restartMain]),
      by simp [afterStopAp], by simp, by simp⟩
  · simp [webview_ready, handle_user_credentials, h1, h3]

/-- C4 (witness): the amended theorem at the all-success run. -/
theorem C4_witness :
    (webview_ready envA depA fsA).1.count Act.removeCredsFile = 1 ∧
    (webview_ready envA depA fsA).2.credsFile = none :=
  ⟨(C4_amended envA depA fsA rfl rfl).2.1,
    (C4_amended envA depA fsA rfl rfl).2.2.2.2⟩

/-! ## Claim C5: DNS failure is non-fatal -/

/-- C5 (confirmed): in every offline, non-raising run the trace ends with
the tail `afterStopAp e`, which contains the connectivity re-check and does
not depend on the DNS reset-loop outcomes or on the `verify_dns_config`
result — those outcomes never change the continuation; a false verify
result only surfaces the warning log line. -/
theorem C5_theorem (e : Env) (dep : String × String) (fs : Fs)
    (h1 : e.net1 = false) (h3 : e.iwRaises = false) :
    (∃ pre, (webview_ready e dep fs).1 = pre ++ afterStopAp e) ∧
    Act.checkInternet e.net2 ∈ afterStopAp e ∧
    (∀ r v, afterStopAp { e with dnsResetOk := r, dnsVerifyOk := v } =
      afterStopAp e) ∧
    (e.stopApOk = true → e.dnsVerifyOk = false →
      Act.warnDns ∈ (webview_ready e dep fs).1) := by
  refine ⟨⟨_, webview_ready_offline e dep fs h1 h3⟩, ?_, fun r v => rfl, ?_⟩
  · simp [afterStopAp]
  · intro hst hdv
    rw [webview_ready_offline e dep fs h1 h3]
    simp [stop_ap_mode, hst, hdv]

/-- C5 (witness): the theorem at the Scenario C run, in which every DNS
reset attempt fails and verification fails, yet the connectivity check
still occurs and the warning is logged. -/
theorem C5_witness :
    Act.checkInternet true ∈ afterStopAp envC5 ∧
    Act.warnDns ∈ (webview_ready envC5 depA fsA).1 :=
  ⟨(C5_theorem envC5 depA fsA rfl rfl).2.1,
    (C5_theorem envC5 depA fsA rfl rfl).2.2.2 rfl rfl⟩

/-! ## Claim C6: connectivity probe error handling -/

/-- C6 (counterexample): the probe passes no `timeout` to `subprocess.run`,
and an execution error other than a non-zero exit (for example a missing
`ping` binary) is not caught by the `except subprocess.CalledProcessError`
clause and propagates to the caller — contradicting both the claimed
never-throws contract and the claimed per-call timeout of at most 5 s. -/
theorem C6_counterexample :
    check_internet_connection PingOutcome.execError =
      PyResult.raised ("OSError") ∧
    pingTimeout = none :=
  ⟨rfl, rfl⟩

/-- C6 (amended): the probe returns `True` exactly on a zero exit status
and `False` exactly on a non-zero exit status (`CalledProcessError`
caught); any other execution error propagates as an exception, and the
`subprocess.run` call sets no per-call timeout at all. -/
theorem C6_amended (o : PingOutcome) :
    (check_internet_connection o = PyResult.ok true ↔
      o = PingOutcome.exitZero) ∧
    (check_internet_connection o = PyResult.ok false ↔
      o = PingOutcome.exitNonZero) ∧
    (check_internet_connection o = PyResult.raised ("OSError") ↔
      o = PingOutcome.execError) ∧
    pingTimeout = none := by
  cases o <;> refine ⟨?_, ?_, ?_, rfl⟩ <;> simp [check_internet_connection]

/-- C6 (witness): the amended theorem at a failed probe. -/
theorem C6_witness :
    check_internet_connection PingOutcome.exitNonZero = PyResult.ok false :=
  (C6_amended PingOutcome.exitNonZero).2.1.mpr rfl

/-! ## Claim C7: DNS reset atomicity -/

/-- C7 (confirmed): `reset_dns` returns `True` exactly when the backup, the
temp-file write and the atomic move all succeed; a successful backup
records the prior resolver content before any overwrite; on success the
resolver file holds exactly the new configuration, on failure it is
unchanged; and in every execution the resolver file holds either its prior
content or the complete new content — never a partial write. -/
theorem C7_theorem (o : ResetDnsOutcome) (fs : ResolvFs) :
    ((reset_dns o fs).1 = true ↔
      o.cpOk = true ∧ o.writeOk = true ∧ o.mvOk = true) ∧
    (o.cpOk = true → (reset_dns o fs).2.resolvBackup = fs.resolvConf) ∧
    ((reset_dns o fs).1 = true →
      (reset_dns o fs).2.resolvConf = some dnsConfig ∧
      (reset_dns o fs).2.resolvBackup = fs.resolvConf) ∧
    ((reset_dns o fs).1 = false →
      (reset_dns o fs).2.resolvConf = fs.resolvConf) ∧
    ((reset_dns o fs).2.resolvConf = fs.resolvConf ∨
      (reset_dns o fs).2.resolvConf = some dnsConfig) := by
  cases hcp : o.cpOk <;> cases hw : o.writeOk <;> cases hm : o.mvOk <;>
    simp [reset_dns, hcp, hw, hm]

/-- C7 (witness): the theorem at a fully successful run over a concrete
prior resolver state. -/
theorem C7_witness :
    (reset_dns oAll fs0).2.resolvConf = some dnsConfig ∧
    (reset_dns oAll fs0).2.resolvBackup = fs0.resolvConf :=
  (C7_theorem oAll fs0).2.2.1 rfl

/-! ## Claim C8: credential application failure handling -/

/-- C8 (counterexample): in a run where `connect_wifi` returns `False` but
the final connectivity check succeeds, the AP start command runs exactly
once in the whole invocation — no AP restart happens after the failed
application — and the flow proceeds straight to activation; there is also
no attempt counter anywhere in the code.  This contradicts the claimed
APPLYING_CREDENTIALS to AP_ACTIVE transition with `attempt_count`
incremented. -/
theorem C8_counterexample :
    Act.connectWifi false ∈ trC8 ∧
    trC8.count (Act.startApCmd true) = 1 ∧
    Act.startApCmd false ∉ trC8 ∧
    Act.restartMain ∉ trC8 ∧
    Before (Act.connectWifi false) (Act.activate true) trC8 := by
  refine ⟨by decide, by decide, by decide, by decide, ?_⟩
  exact ⟨[Act.checkInternet false, Act.startApCmd true, Act.genWifiQr true,
      Act.displayQr, Act.waitClientConn, Act.iwQuery, Act.genWebQr true,
      Act.startFlask, Act.waitCredsFile, Act.stopFlask, Act.stopApCmd true,
      Act.dnsReset true, Act.dnsVerify true, Act.readCreds,
      Act.connectWifi false],
    [Act.dnsReset true, Act.removeCredsFile, Act.checkInternet true,
      Act.activate true],
    by decide, by decide, by decide⟩

/-- C8 (amended): `webview_ready` ignores the result of `connect_wifi`.
After a failed application the flow continues to the post-apply DNS reset,
artifact removal and the connectivity re-check; only when that re-check
fails does the code restart the entire flow with a recursive `main()` call
(which will set up the AP afresh), and when the re-check succeeds no
restart happens and the flow proceeds to activation.  No attempt counter
exists. -/
theorem C8_amended (e : Env) (dep : String × String) (fs : Fs)
    (h1 : e.net1 = false) (h3 : e.iwRaises = false)
    (hc : e.connectOk = false) :
    Before (Act.connectWifi false) (Act.checkInternet e.net2)
      (webview_ready e dep fs).1 ∧
    (e.net2 = false → Act.restartMain ∈ (webview_ready e dep fs).1) ∧
    (e.net2 = true → Act.restartMain ∉ (webview_ready e dep fs).1 ∧
      Act.activate e.activateOk ∈ (webview_ready e dep fs).1) := by
  rw [webview_ready_offline e dep fs h1 h3]
  refine ⟨?_, ?_, ?_⟩
  · refine ⟨(Act.checkInternet false :: start_ap_mode e) ++
      (Act.iwQuery ::
        (if e.iwNonempty then [Act.genWebQr e.webQrOk] else [])) ++
      [Act.startFlask, Act.waitCredsFile, Act.stopFlask] ++
      stop_ap_mode e ++ [Act.readCreds, Act.connectWifi e.connectOk],
      Act.dnsReset e.postApplyDnsOk :: Act.removeCredsFile ::
        Act.checkInternet e.net2 ::
          (if e.net2 then
            Act.activate e.activateOk ::
              (if e.activateOk then [] else [Act.logActivationFailed])
          else [Act.restartMain]),
      by simp [afterStopAp], by simp [hc], by simp⟩
  · intro hn2
    simp [afterStopAp, hn2]
  · intro hn2
    constructor
    · simp [not_mem_restart_startAp, not_mem_restart_stopAp,
        not_mem_restart_after e hn2]
    · simp [afterStopAp, hn2]

/-- C8 (witness): the amended theorem at the concrete failed-apply,
online-afterwards run. -/
theorem C8_witness :
    Before (Act.connectWifi false) (Act.checkInternet true)
      (webview_ready { envA with connectOk := false } depA fsA).1 ∧
    Act.restartMain ∉
      (webview_ready { envA with connectOk := false } depA fsA).1 :=
  ⟨(C8_amended { envA with connectOk := false } depA fsA rfl rfl rfl).1,
    ((C8_amended { envA with connectOk := false } depA fsA rfl rfl rfl).2.2
      rfl).1⟩

/-! ## Claim C9: credential validation bounds -/

/-- C9 (counterexample): `validate_wifi_credentials` measures lengths with
Python `len`, which counts code points, not bytes.  An SSID of seventeen
two-byte characters is 34 UTF-8 bytes long — outside the claimed 1–32 byte
range — yet the function accepts it. -/
theorem C9_counterexample :
    validate_wifi_credentials exSsid none = true ∧
    utf8Len exSsid = 34 ∧ ¬ utf8Len exSsid ≤ 32 := by
  decide

/-- C9 (amended): `validate_wifi_credentials` returns `true` exactly when
the ssid has length between 1 and 32 characters (code points, as Python
`len` counts) and the passphrase is absent, empty, or between 8 and 63
characters long. -/
theorem C9_amended (ssid : String) (pw : Option String) :
    validate_wifi_credentials ssid pw = true ↔
      (1 ≤ ssid.length ∧ ssid.length ≤ 32 ∧
        match pw with
        | none => True
        | some p => p.length = 0 ∨ (8 ≤ p.length ∧ p.length ≤ 63)) := by
  cases pw <;> simp [validate_wifi_credentials] <;> omega

/-- C9 (witness): the amended theorem at the Scenario A credentials. -/
theorem C9_witness :
    validate_wifi_credentials ("HomeNet") (some ("correcthorse1")) = true :=
  (C9_amended ("HomeNet") (some ("correcthorse1"))).mpr (by decide)

/-! ## Claim C10: sanitize_input is idempotent -/

/-- Characters produced by `replaceChar` come from the replacement string
or from the input. -/
theorem mem_replaceChar {a c : Char} {t l : List Char}
    (h : a ∈ replaceChar c t l) : a ∈ t ∨ a ∈ l := by
  induction l with
  | nil => simp [replaceChar] at h
  | cons x xs ih =>
    simp only [replaceChar, List.mem_append] at h
    rcases h with h | h
    · by_cases hx : x = c
      · rw [if_pos hx] at h
        exact Or.inl h
      · rw [if_neg hx] at h
        simp only [List.mem_singleton] at h
        subst h
        exact Or.inr (List.mem_cons_self a xs)
    · rcases ih h with h1 | h1
      · exact Or.inl h1
      · exact Or.inr (List.mem_cons_of_mem x h1)

/-- Replacing a character that does not occur is the identity. -/
theorem replaceChar_of_not_mem {c : Char} {t l : List Char} (h : c ∉ l) :
    replaceChar c t l = l := by
  induction l with
  | nil => rfl
  | cons x xs ih =>
    have hx : ¬ x = c := fun he => h (he ▸ List.mem_cons_self x xs)
    have hxs : c ∉ xs := fun hm => h (List.mem_cons_of_mem x hm)
    simp only [replaceChar, if_neg hx, ih hxs, List.singleton_append]

/-- Characters of the escaped string come from the input or from the
replacement strings. -/
theorem mem_htmlEscape {a : Char} {l : List Char} (h : a ∈ htmlEscape l) :
    a ∈ l ∨ a ∈ escapeChars := by
  have s1 : ∀ x ∈ "&amp;".data, x ∈ escapeChars := by decide
  have s2 : ∀ x ∈ "&lt;".data, x ∈ escapeChars := by decide
  have s3 : ∀ x ∈ "&gt;".data, x ∈ escapeChars := by decide
  have s4 : ∀ x ∈ "&quot;".data, x ∈ escapeChars := by decide
  have s5 : ∀ x ∈ "&#x27;".data, x ∈ escapeChars := by decide
  unfold htmlEscape at h
  rcases mem_replaceChar h with h5 | h
  · exact Or.inr (s5 a h5)
  rcases mem_replaceChar h with h4 | h
  · exact Or.inr (s4 a h4)
  rcases mem_replaceChar h with h3 | h
  · exact Or.inr (s3 a h3)
  rcases mem_replaceChar h with h2 | h
  · exact Or.inr (s2 a h2)
  rcases mem_replaceChar h with h1 | h
  · exact Or.inr (s1 a h1)
  exact Or.inl h

/-- On a string free of the dangerous characters, `html.escape` is the
identity: each of the five replaced characters is in the dangerous set. -/
theorem htmlEscape_of_no_specials {l : List Char}
    (h : ∀ c ∈ l, ¬ c ∈ dangerousChars) : htmlEscape l = l := by
  have h1 : '&' ∉ l := fun hm => h _ hm (by decide)
  have h2 : '<' ∉ l := fun hm => h _ hm (by decide)
  have h3 : '>' ∉ l := fun hm => h _ hm (by decide)
  have h4 : dquoteChar ∉ l := fun hm => h _ hm (by decide)
  have h5 : quoteChar ∉ l := fun hm => h _ hm (by decide)
  unfold htmlEscape
  rw [replaceChar_of_not_mem h1, replaceChar_of_not_mem h2,
    replaceChar_of_not_mem h3, replaceChar_of_not_mem h4,
    replaceChar_of_not_mem h5]

/-- Stripping only removes characters. -/
theorem mem_pyStrip {a : Char} {l : List Char} (h : a ∈ pyStrip l) :
    a ∈ l := by
  have h1 : a ∈ List.rdropWhile pyIsSpace (List.dropWhile pyIsSpace l) := h
  exact (List.dropWhile_suffix pyIsSpace).subset
    ((List.rdropWhile_prefix pyIsSpace (List.dropWhile pyIsSpace l)).subset h1)

/-- The head of a `dropWhile` result fails the predicate. -/
theorem dropWhile_head_not {α : Type} {p : α → Bool} {l : List α} :
    ∀ x, (List.dropWhile p l).head? = some x → p x = false := by
  induction l with
  | nil => intro x hx; simp [List.dropWhile] at hx
  | cons a as ih =>
    intro x hx
    by_cases hp : p a
    · rw [List.dropWhile_cons_of_pos hp] at hx
      exact ih x hx
    · rw [List.dropWhile_cons_of_neg hp] at hx
      simp only [List.head?_cons, Option.some.injEq] at hx
      subst hx
      simpa using hp

/-- Dropping from a list whose head already fails the predicate is the
identity. -/
theorem dropWhile_eq_self_of_head {α : Type} {p : α → Bool} {l : List α}
    (h : ∀ x, l.head? = some x → p x = false) : List.dropWhile p l = l := by
  cases l with
  | nil => rfl
  | cons a as =>
    have ha : p a = false := h a rfl
    rw [List.dropWhile_cons_of_neg (by simp [ha])]

/-- Python `strip` is idempotent. -/
theorem pyStrip_idem (l : List Char) : pyStrip (pyStrip l) = pyStrip l := by
  have hps : ∀ X : List Char, pyStrip X =
      List.rdropWhile pyIsSpace (List.dropWhile pyIsSpace X) :=
    fun X => rfl
  rw [hps (pyStrip l), hps l]
  have key : List.dropWhile pyIsSpace
      (List.rdropWhile pyIsSpace (List.dropWhile pyIsSpace l)) =
      List.rdropWhile pyIsSpace (List.dropWhile pyIsSpace l) := by
    apply dropWhile_eq_self_of_head
    intro x hx
    obtain ⟨t, ht⟩ :=
      List.rdropWhile_prefix pyIsSpace (List.dropWhile pyIsSpace l)
    have hx2 : (List.dropWhile pyIsSpace l).head? = some x := by
      rw [← ht]
      cases hAe : List.rdropWhile pyIsSpace (List.dropWhile pyIsSpace l) with
      | nil => rw [hAe] at hx; simp at hx
      | cons a as =>
        rw [hAe] at hx
        simpa using hx
    exact dropWhile_head_not x hx2
  rw [key, List.rdropWhile_idempotent]

/-- Every character surviving `sanitize_input` is non-control and outside
the dangerous set. -/
theorem sanitize_chars (s : String) :
    ∀ c ∈ (sanitize_input s).data, 32 ≤ c.toNat ∧ ¬ c ∈ dangerousChars := by
  intro c hc
  have hc1 : c ∈ removeDangerous (htmlEscape (removeCtrl s.data)) :=
    mem_pyStrip hc
  rw [removeDangerous, List.mem_filter] at hc1
  obtain ⟨hc2, hdang⟩ := hc1
  refine ⟨?_, by simpa using hdang⟩
  rcases mem_htmlEscape hc2 with h | h
  · rw [removeCtrl, List.mem_filter] at h
    simpa using h.2
  · have hall : ∀ x ∈ escapeChars, 32 ≤ x.toNat := by decide
    exact hall c h

/-- C10 (confirmed): `sanitize_input` is idempotent — its output contains
no control characters and none of the characters removed by the dangerous
class, so the control filter, HTML escape, dangerous-character removal and
strip are all the identity on a second pass. -/
theorem C10_theorem (s : String) :
    (∀ c ∈ (sanitize_input s).data,
      32 ≤ c.toNat ∧ ¬ c ∈ dangerousChars) ∧
    sanitize_input (sanitize_input s) = sanitize_input s := by
  refine ⟨sanitize_chars s, ?_⟩
  have hch := sanitize_chars s
  have h32 : ∀ c ∈ (sanitize_input s).data, 32 ≤ c.toNat :=
    fun c hc => (hch c hc).1
  have hdg : ∀ c ∈ (sanitize_input s).data, ¬ c ∈ dangerousChars :=
    fun c hc => (hch c hc).2
  have hctrl : removeCtrl (sanitize_input s).data = (sanitize_input s).data :=
    List.filter_eq_self.mpr (fun a ha => decide_eq_true (h32 a ha))
  have hesc : htmlEscape (sanitize_input s).data = (sanitize_input s).data :=
    htmlEscape_of_no_specials hdg
  have hdang2 :
      removeDangerous (sanitize_input s).data = (sanitize_input s).data :=
    List.filter_eq_self.mpr (fun a ha => decide_eq_true (hdg a ha))
  have hstrip : pyStrip (sanitize_input s).data = (sanitize_input s).data :=
    pyStrip_idem (removeDangerous (htmlEscape (removeCtrl s.data)))
  show String.mk (pyStrip (removeDangerous
    (htmlEscape (removeCtrl (sanitize_input s).data)))) = sanitize_input s
  rw [hctrl, hesc, hdang2, hstrip]

/-- C10 (witness): idempotence at a concrete input containing an escaped
character. -/
theorem C10_witness :
    sanitize_input (sanitize_input ("a&b")) = sanitize_input ("a&b") :=
  (C10_theorem ("a&b")).2

